import Mathlib

/-!
# Verification of the music-mobile playback session controller

Shallow embedding of the playback-session controller of the `music-mobile`
repository and proofs about it.  The embedded code lives in:

* `src/utils/trackUtils.ts`        — `shuffleTracks`, `createShuffledPlaylist`
* `src/context/AudioContext.tsx`   — `playTrack`, `playShuffled`, `pauseTrack`,
  `resumeTrack`, `skipToNext`, `skipToPrevious`, `handleTrackFinished`, and the
  three end-of-track detectors (engine status callback, foreground resync,
  periodic background poll)
* `src/services/expoAudioService.ts` — the audio-engine adapter (`pause`,
  `resume`, guarded by the presence of a loaded sound object)

Conventions of the embedding:

* JavaScript strings are Lean `String`s; JS falsiness of a string field
  (`!track.src`) is the test `= ""` (the TS types give these fields type
  `string`, with the empty string as the "absent" value).
* `Math.random()`-driven choices are supplied by an oracle `rand : Nat → Nat`
  giving, for each loop index `i`, the chosen swap index (the JS expression
  `Math.floor(Math.random() * (i + 1))`, always `≤ i`).
* Asynchronous network / audio-engine outcomes are supplied by oracles
  indexed by the retry counter of the attempt that performs them.
* React state plus the mirror refs of `AudioContext.tsx` are a single record
  `SessionState`; refs read the latest value, exactly as in the source.
  One exception is modelled explicitly: `playTrack` is memoised with
  `useCallback(..., [])`, so the `currentAlbum` *state binding* it closes
  over keeps its first-render value (`null`) forever; that captured value is
  the `capturedAlbum` parameter below, and every call path of the program
  instantiates it with `none`.
-/

/-- `src/types/Track.ts`: a track descriptor.  `src` is the lazily cached
streaming URL (`""` = not yet resolved), `key` the backend lookup key
(`""` = absent). -/
structure Track where
  album : String
  title : String
  src : String
  artist : String
  key : String
  duration : Option Nat
  deriving Repr, DecidableEq, Inhabited

/-- `src/types/Album.ts` (`AlbumListProps`): an album, i.e. a queue context. -/
structure Album where
  author : String
  album : String
  thumbnail : String
  tracks : List Track
  deriving Repr, DecidableEq, Inhabited

/-- JS `s.startsWith(pat)` on character lists. -/
def charsStartWith : List Char → List Char → Bool
  | _, [] => true
  | [], _ :: _ => false
  | a :: as, b :: bs => a == b && charsStartWith as bs

/-- JS `String.prototype.includes` on character lists. -/
def charsContain : List Char → List Char → Bool
  | [], pat => charsStartWith [] pat
  | a :: as, pat => charsStartWith (a :: as) pat || charsContain as pat

/-- JS `s.includes(pat)`. -/
def strIncludes (s pat : String) : Bool :=
  charsContain s.toList pat.toList

/-- JS `s.trim() === ''`: every character is whitespace. -/
def isBlank (s : String) : Bool :=
  s.toList.all Char.isWhitespace

/-! ## Shuffle generator (`src/utils/trackUtils.ts`) -/

/-- The JS destructuring swap `[l[i], l[j]] = [l[j], l[i]]` on a list.  When
either index is out of range the list is returned unchanged (unreachable for
the in-range indices produced by `Math.random`). -/
def listSwap (l : List Track) (i j : Nat) : List Track :=
  match l[i]?, l[j]? with
  | some a, some b => (l.set i b).set j a
  | _, _ => l

/-- The Fisher–Yates loop of `shuffleTracks`: `for (let i = len-1; i > 0; i--)`
swapping position `i` with position `rand i`. -/
def fisherYatesLoop (rand : Nat → Nat) : List Track → Nat → List Track
  | l, 0 => l
  | l, i + 1 => fisherYatesLoop rand (listSwap l (i + 1) (rand (i + 1))) i

/-- `shuffleTracks` (`trackUtils.ts`, lines 8–23): length ≤ 1 returns a copy,
otherwise Fisher–Yates over a copy of the input. -/
def shuffleTracks (rand : Nat → Nat) (tracks : List Track) : List Track :=
  if tracks.length ≤ 1 then tracks
  else fisherYatesLoop rand tracks (tracks.length - 1)

/-- The (title, artist) matching predicate used by `createShuffledPlaylist`'s
`findIndex` callback. -/
def sameTitleArtist (shuffledTrack t : Track) : Bool :=
  t.title == shuffledTrack.title && t.artist == shuffledTrack.artist

/-- `createShuffledPlaylist` (`trackUtils.ts`, lines 31–52): shuffle, then for
each shuffled position record the `findIndex` of a (title, artist) match in
the original list (skipped when no match exists, mirroring
`if (originalIndex >= 0)`). -/
def createShuffledPlaylist (rand : Nat → Nat) (tracks : List Track) :
    List Track × List (Nat × Nat) :=
  let shuffledTracks := shuffleTracks rand tracks
  let originalIndexMap := shuffledTracks.enum.filterMap fun si =>
    let originalIndex := tracks.findIdx (sameTitleArtist si.2)
    if originalIndex < tracks.length then some (si.1, originalIndex) else none
  (shuffledTracks, originalIndexMap)

/-! ### Permutation facts about the shuffle -/

theorem append_cons_cons_perm (A P Q : List Track) (a b : Track) :
    (A ++ a :: (P ++ b :: Q)).Perm (A ++ b :: (P ++ a :: Q)) := by
  apply List.Perm.append_left
  exact ((List.perm_middle).cons a).trans
    ((List.Perm.swap b a (P ++ Q)).trans ((List.perm_middle).symm.cons b))

theorem set_getElem_self_eq (l : List Track) (i : Nat) (h : i < l.length) :
    l.set i l[i] = l := by
  rw [List.set_eq_take_cons_drop _ h, List.getElem_cons_drop _ i h,
    List.take_append_drop]

theorem listSwap_perm_of_lt (l : List Track) (i j : Nat)
    (hij : i < j) (hj : j < l.length) : (listSwap l i j).Perm l := by
  have hi : i < l.length := Nat.lt_trans hij hj
  have hgi : l[i]? = some l[i] := List.getElem?_eq_getElem hi
  have hgj : l[j]? = some l[j] := List.getElem?_eq_getElem hj
  unfold listSwap
  rw [hgi, hgj]
  show ((l.set i l[j]).set j l[i]).Perm l
  have hset : l.set i l[j] = l.take i ++ l[j] :: l.drop (i + 1) :=
    List.set_eq_take_cons_drop _ hi
  have hlen : (l.take i).length = i := by
    simp [List.length_take]
    omega
  have hik : i + 1 + (j - (i + 1)) = j := by omega
  have hk : j - (i + 1) < (l.drop (i + 1)).length := by
    rw [List.length_drop]; omega
  have hdk : (l.drop (i + 1))[j - (i + 1)] = l[j] := by
    rw [List.getElem_drop]
    congr 1
  have hsplit : l.drop (i + 1) =
      (l.drop (i + 1)).take (j - (i + 1)) ++
        l[j] :: (l.drop (i + 1)).drop (j - (i + 1) + 1) := by
    conv_lhs => rw [← List.take_append_drop (j - (i + 1)) (l.drop (i + 1))]
    rw [List.drop_eq_getElem_cons hk, hdk]
  have hset2 : (l.set i l[j]).set j l[i] =
      l.take i ++ l[j] :: ((l.drop (i + 1)).set (j - (i + 1)) l[i]) := by
    rw [hset, List.set_append_right _ _ (by omega)]
    congr 1
    have : j - (l.take i).length = (j - i - 1) + 1 := by omega
    rw [this]
    simp only [List.set_cons_succ]
    congr 2
  have hsetk : (l.drop (i + 1)).set (j - (i + 1)) l[i] =
      (l.drop (i + 1)).take (j - (i + 1)) ++
        l[i] :: (l.drop (i + 1)).drop (j - (i + 1) + 1) :=
    List.set_eq_take_cons_drop _ hk
  have hwhole : l = l.take i ++
      l[i] :: ((l.drop (i + 1)).take (j - (i + 1)) ++
        l[j] :: (l.drop (i + 1)).drop (j - (i + 1) + 1)) := by
    conv_lhs => rw [← List.take_append_drop i l, List.drop_eq_getElem_cons hi]
    rw [← hsplit]
  rw [hset2, hsetk]
  conv_rhs => rw [hwhole]
  exact append_cons_cons_perm _ _ _ _ _

theorem listSwap_perm (l : List Track) (i j : Nat) : (listSwap l i j).Perm l := by
  rcases Nat.lt_trichotomy i j with hij | rfl | hji
  · by_cases hj : j < l.length
    · exact listSwap_perm_of_lt l i j hij hj
    · have hjn : l[j]? = none := List.getElem?_eq_none (by omega)
      unfold listSwap
      rw [hjn]
      cases l[i]? <;> exact List.Perm.refl l
  · by_cases hi : i < l.length
    · unfold listSwap
      rw [List.getElem?_eq_getElem hi]
      show ((l.set i l[i]).set i l[i]).Perm l
      rw [List.set_set, set_getElem_self_eq l i hi]
    · have hin : l[i]? = none := List.getElem?_eq_none (by omega)
      unfold listSwap
      rw [hin]
  · by_cases hi : i < l.length
    · by_cases hj : j < l.length
      · have h := listSwap_perm_of_lt l j i hji hi
        unfold listSwap at h ⊢
        rw [List.getElem?_eq_getElem hi, List.getElem?_eq_getElem hj]
        rw [List.getElem?_eq_getElem hj, List.getElem?_eq_getElem hi] at h
        show ((l.set i l[j]).set j l[i]).Perm l
        have h' : ((l.set j l[i]).set i l[j]).Perm l := h
        rwa [List.set_comm _ _ _ (by omega)]
      · have hjn : l[j]? = none := List.getElem?_eq_none (by omega)
        unfold listSwap
        rw [hjn]
        cases l[i]? <;> exact List.Perm.refl l
    · have hin : l[i]? = none := List.getElem?_eq_none (by omega)
      unfold listSwap
      rw [hin]

theorem fisherYatesLoop_perm (rand : Nat → Nat) :
    ∀ (n : Nat) (l : List Track), (fisherYatesLoop rand l n).Perm l := by
  intro n
  induction n with
  | zero => intro l; exact List.Perm.refl l
  | succ i ih =>
    intro l
    exact (ih _).trans (listSwap_perm l (i + 1) (rand (i + 1)))

theorem shuffleTracks_perm (rand : Nat → Nat) (tracks : List Track) :
    (shuffleTracks rand tracks).Perm tracks := by
  unfold shuffleTracks
  split
  · exact List.Perm.refl tracks
  · exact fisherYatesLoop_perm rand _ tracks

/-- C7: `shuffleTracks` returns a permutation of its input (same length, same
multiset), produced by the Fisher–Yates loop, and a list of length ≤ 1 is
returned unchanged.  (The input list is never mutated: the embedding is pure,
matching the source's spread-copy `[...tracks]`.) -/
theorem shuffleTracks_spec (rand : Nat → Nat) (tracks : List Track) :
    (shuffleTracks rand tracks).Perm tracks ∧
    (shuffleTracks rand tracks).length = tracks.length ∧
    (tracks.length ≤ 1 → shuffleTracks rand tracks = tracks) := by
  refine ⟨shuffleTracks_perm rand tracks,
    (shuffleTracks_perm rand tracks).length_eq, ?_⟩
  intro h
  unfold shuffleTracks
  simp [h]

/-- C8: every entry `(si, oi)` of the index map produced by
`createShuffledPlaylist` points at an in-range original position `oi` whose
track has the same (title, artist) as the shuffled track at position `si`,
and `oi` is the *first* such match in the original list (the behaviour of
`Array.prototype.findIndex`, also for duplicate (title, artist) pairs). -/
theorem createShuffledPlaylist_indexMap_spec (rand : Nat → Nat)
    (tracks : List Track) (si oi : Nat)
    (hmem : (si, oi) ∈ (createShuffledPlaylist rand tracks).2) :
    oi < tracks.length ∧
    ∃ st q, ((createShuffledPlaylist rand tracks).1)[si]? = some st ∧
      tracks[oi]? = some q ∧ sameTitleArtist st q = true ∧
      ∀ k q', k < oi → tracks[k]? = some q' → sameTitleArtist st q' = false := by
  unfold createShuffledPlaylist at hmem ⊢
  simp only [List.mem_filterMap] at hmem
  obtain ⟨⟨si', st⟩, henum, hf⟩ := hmem
  have hst : (shuffleTracks rand tracks)[si']? = some st :=
    List.mk_mem_enum_iff_getElem?.mp henum
  simp only at hf
  split at hf
  case isFalse => simp at hf
  case isTrue hlt =>
    obtain ⟨rfl, rfl⟩ := Prod.mk.inj (Option.some.inj hf)
    refine ⟨hlt, st, tracks[tracks.findIdx (sameTitleArtist st)], hst,
      List.getElem?_eq_getElem hlt, List.findIdx_getElem, ?_⟩
    intro k q' hk hq'
    have hkl : k < tracks.length := Nat.lt_trans hk hlt
    have : q' = tracks[k] := by
      have := List.getElem?_eq_getElem hkl
      rw [hq'] at this
      exact Option.some.inj this
    rw [this]
    exact List.not_of_lt_findIdx hk

/-! ## End-of-track detection and the de-duplication guard
(`AudioContext.tsx`, lines 189–229, 242–304, 315–378)

Three detectors can react to the end of the currently playing track: the
engine status callback (primary, `didJustFinish`), the foreground-resync
check run when the app becomes active, and the periodic background poll.
All three gate on `trackFinishedTriggeredRef`: they fire only when the ref
differs from the current track's `title-artist` key, and they write the key
into the ref when they fire.  The models below return the new ref value and
whether `handleTrackFinished` was invoked. -/

/-- The `title-artist` de-duplication key (``${title}-${artist}``). -/
def trackFinishedKey (t : Track) : String :=
  t.title ++ "-" ++ t.artist

/-- A snapshot of the engine's `AVPlaybackStatus` (loaded case fields). -/
structure AVStatus where
  isLoaded : Bool
  positionMillis : Int
  durationMillis : Int
  didJustFinish : Bool
  isPlaying : Bool
  isLooping : Bool
  deriving Repr, DecidableEq

/-- Primary detector: the `setOnPlaybackStatusUpdate` callback
(`AudioContext.tsx`, lines 189–229), for current track `t` and guard ref
`guard`.  Returns (new guard, fired?). -/
def statusUpdateDetector (t : Track) (guard : Option String) (st : AVStatus) :
    Option String × Bool :=
  if st.isLoaded then
    if st.didJustFinish && !st.isLooping then
      let currentTrackKey := trackFinishedKey t
      if guard ≠ some currentTrackKey then (some currentTrackKey, true)
      else (guard, false)
    else (guard, false)
  else (guard, false)

/-- Fallback detector: the foreground-resync check in `handleAppStateChange`
(`AudioContext.tsx`, lines 245–285), run when the app becomes active. -/
def foregroundCheckDetector (t : Track) (guard : Option String)
    (st : AVStatus) : Option String × Bool :=
  if st.isLoaded then
    let remaining := if st.durationMillis > 0
      then st.durationMillis - st.positionMillis else 0
    let currentTrackKey := trackFinishedKey t
    let trackFinished := st.didJustFinish ||
      (st.durationMillis > 0 && remaining ≤ 1000 && remaining ≥ -2000 &&
        !st.isPlaying)
    if trackFinished && guard ≠ some currentTrackKey then
      (some currentTrackKey, true)
    else (guard, false)
  else (guard, false)

/-- Fallback detector: the periodic background poll (`AudioContext.tsx`,
lines 321–364), including its delayed double-check against a second status
snapshot `latest`. -/
def periodicCheckDetector (t : Track) (guard : Option String)
    (isBackground : Bool) (st latest : AVStatus) : Option String × Bool :=
  if st.isLoaded then
    let currentTrackKey := trackFinishedKey t
    if isBackground && st.durationMillis > 0 && st.positionMillis > 0 then
      let remaining := st.durationMillis - st.positionMillis
      if !st.isPlaying && remaining ≤ 2000 && remaining ≥ -2000 &&
          guard ≠ some currentTrackKey then
        if latest.isLoaded then
          let latestRemaining := latest.durationMillis - latest.positionMillis
          if !latest.isPlaying && latestRemaining ≤ 2000 &&
              latestRemaining ≥ -2000 && guard ≠ some currentTrackKey then
            (some currentTrackKey, true)
          else (guard, false)
        else (guard, false)
      else (guard, false)
    else (guard, false)
  else (guard, false)

/-- One detector firing for the same end-of-track event. -/
inductive FinishEvent where
  | statusUpdate (st : AVStatus)
  | foregroundCheck (st : AVStatus)
  | periodicCheck (isBackground : Bool) (st latest : AVStatus)
  deriving Repr, DecidableEq

/-- Dispatch one detector event against the current track and guard ref. -/
def fireDetector (t : Track) (guard : Option String) :
    FinishEvent → Option String × Bool
  | .statusUpdate st => statusUpdateDetector t guard st
  | .foregroundCheck st => foregroundCheckDetector t guard st
  | .periodicCheck bg st latest => periodicCheckDetector t guard bg st latest

/-- How many times `handleTrackFinished` is invoked over a sequence of
detector firings for the same current track, threading the guard ref. -/
def advanceCount (t : Track) : Option String → List FinishEvent → Nat
  | _, [] => 0
  | guard, ev :: evs =>
    let r := fireDetector t guard ev
    (if r.2 then 1 else 0) + advanceCount t r.1 evs

theorem fireDetector_cases (t : Track) (guard : Option String)
    (ev : FinishEvent) :
    fireDetector t guard ev = (some (trackFinishedKey t), true) ∨
    fireDetector t guard ev = (guard, false) := by
  cases ev <;>
    simp only [fireDetector, statusUpdateDetector, foregroundCheckDetector,
      periodicCheckDetector] <;>
    (repeat' split) <;> simp

theorem fireDetector_guarded (t : Track) (ev : FinishEvent) :
    fireDetector t (some (trackFinishedKey t)) ev =
      (some (trackFinishedKey t), false) := by
  cases ev <;>
    simp [fireDetector, statusUpdateDetector, foregroundCheckDetector,
      periodicCheckDetector]

theorem fireDetector_fired (t : Track) (guard : Option String)
    (ev : FinishEvent) (h : (fireDetector t guard ev).2 = true) :
    (fireDetector t guard ev).1 = some (trackFinishedKey t) := by
  rcases fireDetector_cases t guard ev with hc | hc
  · rw [hc]
  · rw [hc] at h ⊢
    simp at h

theorem fireDetector_not_fired (t : Track) (guard : Option String)
    (ev : FinishEvent) (h : (fireDetector t guard ev).2 = false) :
    (fireDetector t guard ev).1 = guard := by
  rcases fireDetector_cases t guard ev with hc | hc
  · rw [hc] at h ⊢
    simp at h
  · rw [hc]

theorem advanceCount_guarded (t : Track) (evs : List FinishEvent) :
    advanceCount t (some (trackFinishedKey t)) evs = 0 := by
  induction evs with
  | nil => rfl
  | cons ev evs ih =>
    simp [advanceCount, fireDetector_guarded, ih]

/-- C1: for any interleaving of the three end-of-track detectors firing for
the same current track (one end event; the guard ref is not reset in
between), `handleTrackFinished` is invoked at most once: the first detector
to fire writes the track's `title-artist` key into the guard ref before
advancing, and every later detector observing that key does not advance. -/
theorem finish_detectors_advance_at_most_once (t : Track)
    (guard : Option String) (evs : List FinishEvent) :
    advanceCount t guard evs ≤ 1 := by
  induction evs generalizing guard with
  | nil => simp [advanceCount]
  | cons ev evs ih =>
    by_cases h : (fireDetector t guard ev).2 = true
    · have hg := fireDetector_fired t guard ev h
      simp [advanceCount, h, hg, advanceCount_guarded]
    · have h' : (fireDetector t guard ev).2 = false := by
        simpa using h
      have hg := fireDetector_not_fired t guard ev h'
      simp [advanceCount, h', hg]
      exact ih guard

/-! ## Playback session controller state (`AudioContext.tsx`) -/

/-- The session state of `AudioProvider`: the React state fields together
with their mirror refs (`currentAlbumRef`, `currentTrackIndexRef`,
`isShuffledRef`, `shuffledIndexMapRef`, `trackFinishedTriggeredRef`), which
the source keeps in sync with the state. -/
structure SessionState where
  currentTrack : Option Track
  currentAlbum : Option Album
  currentTrackIndex : Int
  isLoading : Bool
  isPlaying : Bool
  isShuffled : Bool
  shuffledIndexMap : List (Nat × Nat)
  trackFinishedTriggered : Option String
  deriving Repr, DecidableEq

/-- The `useState` initial values (`AudioContext.tsx`, lines 31–46). -/
def initialSession : SessionState :=
  { currentTrack := none
    currentAlbum := none
    currentTrackIndex := -1
    isLoading := false
    isPlaying := false
    isShuffled := false
    shuffledIndexMap := []
    trackFinishedTriggered := none }

/-- Track identity up to the mutable cache fields: JS compares tracks by
object reference, and `playTrack` mutates only the `src` cache
(`track.src = streamingUrl`) of the object it was handed, so two references
to the same object always agree on `album`, `title`, `artist` and `key`.
This is the pure-model proxy for reference equality. -/
def trackIdEq (x y : Track) : Bool :=
  x.album == y.album && x.title == y.title && x.artist == y.artist &&
    x.key == y.key

/-- Outcome of one asynchronous URL resolution
(`getTrackStreamingUrl`). -/
inductive ResolveResult where
  | ok (url : String)
  | err (msg : String)
  deriving Repr, DecidableEq

/-- `playTrack`'s network classification of a URL-resolution error
(`AudioContext.tsx`, lines 465–468). -/
def isNetworkUrlError (msg : String) : Bool :=
  strIncludes msg "UnknownHostException" ||
    strIncludes msg "Unable to resolve host" ||
    strIncludes msg "Network" ||
    strIncludes msg "fetch"

/-- `playTrack`'s network classification in the outer catch
(`AudioContext.tsx`, lines 499–503). -/
def isNetworkPlayError (msg : String) : Bool :=
  strIncludes msg "UnknownHostException" ||
    strIncludes msg "Unable to resolve host" ||
    strIncludes msg "Network" ||
    strIncludes msg "fetch" ||
    strIncludes msg "E_LOAD_ERROR"

/-- `handleTrackFinished`'s network classification
(`AudioContext.tsx`, lines 140–143). -/
def isNetworkFinishError (msg : String) : Bool :=
  strIncludes msg "Network" ||
    strIncludes msg "UnknownHostException" ||
    strIncludes msg "Unable to resolve" ||
    strIncludes msg "E_LOAD_ERROR"

/-- Error thrown when a track has neither `src` nor `key`
(`AudioContext.tsx`, line 449). -/
def missingKeyMsg (track : Track) : String :=
  "Track \"" ++ track.title ++ "\" does not have a valid key for streaming"

/-- The `NetworkError` surfaced after URL-resolution failure
(`AudioContext.tsx`, line 486). -/
def networkFailMsg : String :=
  "Network error: Could not connect to music server."

/-- Error thrown on an empty/whitespace streaming URL
(`AudioContext.tsx`, line 491). -/
def invalidUrlMsg (track : Track) : String :=
  "Invalid streaming URL for track \"" ++ track.title ++ "\""

/-- The `tracksMatch` check of `playTrack` (`AudioContext.tsx`, lines
407–410): `album.tracks.every((track, index) => currentAlbum.tracks[index]?
.title === track.title && currentAlbum.tracks[index]?.artist ===
track.artist)`. -/
def tracksMatchByTitleArtist (albumTracks currentTracks : List Track) : Bool :=
  albumTracks.enum.all fun it =>
    match currentTracks[it.1]? with
    | some c => c.title == it.2.title && c.artist == it.2.artist
    | none => false

/-- The album/shuffle-reset block of `playTrack` (`AudioContext.tsx`, lines
389–434), executed when an `album` argument is supplied.  `capturedAlbum` is
the value of the `currentAlbum` state binding captured by `playTrack`'s
memoised closure — `useCallback(..., [])` pins it to the first-render value
`null` (`none`), which is how every call in the program runs; the shuffle
refs, by contrast, are read through refs and therefore see `s`. -/
def applyAlbumCheck (capturedAlbum : Option Album) (s : SessionState)
    (album : Album) (isFromShuffle : Bool) : SessionState :=
  let isNewAlbum :=
    match capturedAlbum with
    | none => true
    | some ca => ca.album != album.album || ca.author != album.author
  if isFromShuffle then
    { s with currentAlbum := some album }
  else
    let isExitingShuffle :=
      match capturedAlbum with
      | none => false
      | some ca =>
        if s.isShuffled && !isNewAlbum &&
            (album.tracks.length == ca.tracks.length) then
          let tracksMatch := tracksMatchByTitleArtist album.tracks ca.tracks
          !tracksMatch && decide (s.shuffledIndexMap.length > 0)
        else false
    let s1 := { s with currentAlbum := some album }
    if isNewAlbum || isExitingShuffle then
      { s1 with shuffledIndexMap := [], isShuffled := false }
    else s1

/-- The synchronous preamble of `playTrack` (`AudioContext.tsx`, lines
385–438): optimistic `currentTrack`, loading flag, guard reset, album block,
index update. -/
def prepState (capturedAlbum : Option Album) (s : SessionState)
    (track : Track) (albumArg : Option Album) (trackIndexArg : Option Int)
    (isFromShuffle : Bool) : SessionState :=
  let s1 := { s with
    isLoading := true
    currentTrack := some track
    trackFinishedTriggered := none }
  let s2 := match albumArg with
    | none => s1
    | some album => applyAlbumCheck capturedAlbum s1 album isFromShuffle
  match trackIndexArg with
  | none => s2
  | some i => { s2 with currentTrackIndex := i }

/-- Result of the URL-resolution phase of `playTrack` (lines 440–488):
either a usable URL (with the track carrying the cached `src`), an
in-branch network retry, or a message reaching the outer catch. -/
inductive UrlPhase where
  | resolved (track' : Track) (url : String)
  | retryUrl (msg : String)
  | failed (msg : String)
  deriving Repr, DecidableEq

/-- The URL-resolution phase of `playTrack` at retry count `retryCount`. -/
def urlPhase (resolve : Nat → ResolveResult) (track : Track)
    (retryCount : Nat) : UrlPhase :=
  if track.src != "" then .resolved track track.src
  else if track.key == "" then .failed (missingKeyMsg track)
  else
    match resolve retryCount with
    | .ok url => .resolved { track with src := url } url
    | .err msg =>
      if isNetworkUrlError msg && retryCount < 3 then .retryUrl msg
      else .failed networkFailMsg

deriving instance DecidableEq for Except

/-- Full outcome of a `playTrack` call: the session state after the call
settles, the promise outcome delivered to the caller, and the backoff
delays awaited (in order). -/
structure PlayOutcome where
  state : SessionState
  result : Except String Unit
  delays : List Nat
  deriving Repr, DecidableEq

/-- `playTrack` (`AudioContext.tsx`, lines 380–522), with an explicit fuel
argument making the retry recursion structural.  The caller supplies
`fuel = maxRetries - retryCount + 1`; every recursive call is guarded by
`retryCount < maxRetries`, so the fuel never reaches 0 (the 0 case applies
the same preamble and fails, and is provably unreachable). -/
def playTrackGo (capturedAlbum : Option Album) (resolve : Nat → ResolveResult)
    (engine : Nat → Option String) :
    Nat → SessionState → Track → Option Album → Option Int → Nat → Bool →
      PlayOutcome
  | 0, s, track, albumArg, trackIndexArg, _, isFromShuffle =>
    ⟨{ prepState capturedAlbum s track albumArg trackIndexArg isFromShuffle
        with isLoading := false }, .error networkFailMsg, []⟩
  | fuel + 1, s, track, albumArg, trackIndexArg, retryCount, isFromShuffle =>
    let retryDelay := 1000 * (retryCount + 1)
    let s3 := prepState capturedAlbum s track albumArg trackIndexArg
      isFromShuffle
    match urlPhase resolve track retryCount with
    | .retryUrl _ =>
      let out := playTrackGo capturedAlbum resolve engine fuel s3 track
        albumArg trackIndexArg (retryCount + 1) isFromShuffle
      ⟨out.state, out.result, retryDelay :: out.delays⟩
    | .failed msg =>
      if isNetworkPlayError msg && retryCount < 3 then
        let out := playTrackGo capturedAlbum resolve engine fuel s3 track
          albumArg trackIndexArg (retryCount + 1) isFromShuffle
        ⟨out.state, out.result, retryDelay :: out.delays⟩
      else ⟨{ s3 with isLoading := false }, .error msg, []⟩
    | .resolved track' url =>
      if isBlank url then
        if isNetworkPlayError (invalidUrlMsg track) && retryCount < 3 then
          let out := playTrackGo capturedAlbum resolve engine fuel s3 track'
            albumArg trackIndexArg (retryCount + 1) isFromShuffle
          ⟨out.state, out.result, retryDelay :: out.delays⟩
        else ⟨{ s3 with isLoading := false }, .error (invalidUrlMsg track), []⟩
      else
        match engine retryCount with
        | none =>
          ⟨{ s3 with isPlaying := true, isLoading := false }, .ok (), []⟩
        | some msg =>
          if isNetworkPlayError msg && retryCount < 3 then
            let out := playTrackGo capturedAlbum resolve engine fuel s3 track'
              albumArg trackIndexArg (retryCount + 1) isFromShuffle
            ⟨out.state, out.result, retryDelay :: out.delays⟩
          else ⟨{ s3 with isLoading := false }, .error msg, []⟩

/-- `playTrack` entry point. -/
def playTrack (capturedAlbum : Option Album) (resolve : Nat → ResolveResult)
    (engine : Nat → Option String) (s : SessionState) (track : Track)
    (albumArg : Option Album) (trackIndexArg : Option Int)
    (retryCount : Nat) (isFromShuffle : Bool) : PlayOutcome :=
  playTrackGo capturedAlbum resolve engine (3 - retryCount + 1) s track
    albumArg trackIndexArg retryCount isFromShuffle

/-- Outcome of `handleTrackFinished`: the settled session state and whether
a one-shot become-active retry listener was registered (the deferred retry
path for network errors in the background, lines 153–173). -/
structure FinishOutcome where
  state : SessionState
  retryScheduled : Bool
  deriving Repr, DecidableEq

/-- `handleTrackFinished` (`AudioContext.tsx`, lines 63–178).  Reads album,
index and shuffle flag through refs (the current state `s`).  `isBackground`
is the app-state test, `precache` the outcome of the foreground URL
pre-cache attempt (only consulted when that attempt runs); the advance
itself goes through `playTrackRef.current`, i.e. the memoised `playTrack`
closure (`capturedAlbum = none`). -/
def handleTrackFinished (resolve : Nat → ResolveResult)
    (engine : Nat → Option String) (isBackground : Bool)
    (precache : ResolveResult) (s : SessionState) : FinishOutcome :=
  match s.currentAlbum with
  | none => ⟨s, false⟩
  | some album =>
    if s.currentTrackIndex < 0 then ⟨s, false⟩
    else
      let nextIndex := s.currentTrackIndex + 1
      if nextIndex ≥ (album.tracks.length : Int) then
        ⟨{ s with isPlaying := false }, false⟩
      else
        match album.tracks[nextIndex.toNat]? with
        | none => ⟨s, false⟩
        | some nt =>
          let nextTrack :=
            if !isBackground && nt.src == "" && nt.key != "" then
              match precache with
              | .ok url => { nt with src := url }
              | .err _ => nt
            else nt
          let currentlyShuffled := s.isShuffled
          let out := playTrack none resolve engine s nextTrack (some album)
            (some nextIndex) 0 currentlyShuffled
          match out.result with
          | .ok _ => ⟨{ out.state with trackFinishedTriggered := none }, false⟩
          | .error msg =>
            if isNetworkFinishError msg && isBackground then
              ⟨out.state, true⟩
            else ⟨{ out.state with isPlaying := false }, false⟩

/-- `skipToNext` (`AudioContext.tsx`, lines 583–590). -/
def skipToNext (resolve : Nat → ResolveResult)
    (engine : Nat → Option String) (s : SessionState) : PlayOutcome :=
  match s.currentAlbum with
  | none => ⟨s, .ok (), []⟩
  | some album =>
    if s.currentTrackIndex ≥ 0 then
      let nextIndex := s.currentTrackIndex + 1
      if nextIndex < (album.tracks.length : Int) then
        match album.tracks[nextIndex.toNat]? with
        | some t =>
          playTrack none resolve engine s t (some album) (some nextIndex)
            0 false
        | none => ⟨s, .ok (), []⟩
      else ⟨s, .ok (), []⟩
    else ⟨s, .ok (), []⟩

/-- `skipToPrevious` (`AudioContext.tsx`, lines 592–597). -/
def skipToPrevious (resolve : Nat → ResolveResult)
    (engine : Nat → Option String) (s : SessionState) : PlayOutcome :=
  match s.currentAlbum with
  | none => ⟨s, .ok (), []⟩
  | some album =>
    if s.currentTrackIndex > 0 then
      let prevIndex := s.currentTrackIndex - 1
      match album.tracks[prevIndex.toNat]? with
      | some t =>
        playTrack none resolve engine s t (some album) (some prevIndex)
          0 false
      | none => ⟨s, .ok (), []⟩
    else ⟨s, .ok (), []⟩

/-- `playShuffled` (`AudioContext.tsx`, lines 546–581): no-op on an empty
album; otherwise shuffle, store the index map, set the shuffle flag (ref and
state), and play the first shuffled track with `isFromShuffle = true`; on
failure set the shuffle flag back to false and re-throw. -/
def playShuffled (rand : Nat → Nat) (resolve : Nat → ResolveResult)
    (engine : Nat → Option String) (s : SessionState) (album : Album) :
    PlayOutcome :=
  if album.tracks.length == 0 then ⟨s, .ok (), []⟩
  else
    let p := createShuffledPlaylist rand album.tracks
    let shuffledAlbum := { album with tracks := p.1 }
    let s1 := { s with shuffledIndexMap := p.2, isShuffled := true }
    let out := playTrack none resolve engine s1 p.1.headI
      (some shuffledAlbum) (some 0) 0 true
    match out.result with
    | .ok _ => out
    | .error msg => ⟨{ out.state with isShuffled := false }, .error msg,
        out.delays⟩

/-- `ExpoAudioService.pause` (`expoAudioService.ts`, lines 254–259): a no-op
resolving successfully when no sound object is loaded; otherwise the
engine's `pauseAsync` outcome (`none` = resolved, `some msg` =
rejected). -/
def servicePause (soundLoaded : Bool) (engineCall : Option String) :
    Except String Unit :=
  if soundLoaded then
    match engineCall with
    | none => .ok ()
    | some msg => .error msg
  else .ok ()

/-- `ExpoAudioService.resume` (`expoAudioService.ts`, lines 261–266):
same guarded shape as `pause`. -/
def serviceResume (soundLoaded : Bool) (engineCall : Option String) :
    Except String Unit :=
  if soundLoaded then
    match engineCall with
    | none => .ok ()
    | some msg => .error msg
  else .ok ()

/-- `pauseTrack` (`AudioContext.tsx`, lines 528–535): on success set
`isPlaying` to false; a rejection is caught and logged, leaving the state
unchanged. -/
def pauseTrack (soundLoaded : Bool) (engineCall : Option String)
    (s : SessionState) : SessionState :=
  match servicePause soundLoaded engineCall with
  | .ok _ => { s with isPlaying := false }
  | .error _ => s

/-- `resumeTrack` (`AudioContext.tsx`, lines 537–544): on success set
`isPlaying` to true; a rejection is caught and logged. -/
def resumeTrack (soundLoaded : Bool) (engineCall : Option String)
    (s : SessionState) : SessionState :=
  match serviceResume soundLoaded engineCall with
  | .ok _ => { s with isPlaying := true }
  | .error _ => s

/-! ### Field bookkeeping lemmas for the `playTrack` preamble -/

theorem applyAlbumCheck_fields (cap : Option Album) (s : SessionState)
    (album : Album) (f : Bool) :
    (applyAlbumCheck cap s album f).currentTrack = s.currentTrack ∧
    (applyAlbumCheck cap s album f).currentAlbum = some album ∧
    (applyAlbumCheck cap s album f).currentTrackIndex = s.currentTrackIndex ∧
    (applyAlbumCheck cap s album f).isLoading = s.isLoading ∧
    (applyAlbumCheck cap s album f).isPlaying = s.isPlaying ∧
    (applyAlbumCheck cap s album f).trackFinishedTriggered =
      s.trackFinishedTriggered := by
  unfold applyAlbumCheck
  (repeat' split) <;> (try simp) <;> (repeat' split) <;> simp

theorem prepState_currentTrack (cap : Option Album) (s : SessionState)
    (track : Track) (albumArg : Option Album) (idxArg : Option Int)
    (f : Bool) :
    (prepState cap s track albumArg idxArg f).currentTrack = some track := by
  unfold prepState
  cases albumArg <;> cases idxArg <;>
    simp [(applyAlbumCheck_fields cap _ _ f).1]

theorem prepState_currentAlbum (cap : Option Album) (s : SessionState)
    (track : Track) (album : Album) (idxArg : Option Int) (f : Bool) :
    (prepState cap s track (some album) idxArg f).currentAlbum =
      some album := by
  unfold prepState
  cases idxArg <;> simp [(applyAlbumCheck_fields cap _ album f).2.1]

theorem prepState_currentTrackIndex (cap : Option Album) (s : SessionState)
    (track : Track) (albumArg : Option Album) (i : Int) (f : Bool) :
    (prepState cap s track albumArg (some i) f).currentTrackIndex = i := by
  unfold prepState
  cases albumArg <;> simp

theorem prepState_isPlaying (cap : Option Album) (s : SessionState)
    (track : Track) (albumArg : Option Album) (idxArg : Option Int)
    (f : Bool) :
    (prepState cap s track albumArg idxArg f).isPlaying = s.isPlaying := by
  unfold prepState
  cases albumArg <;> cases idxArg <;>
    simp [(applyAlbumCheck_fields cap _ _ f).2.2.2.2.1]

/-- C3: a `playTrack` call whose URL resolution fails with network-classified
errors retries with linear backoff (1s, 2s, 3s).  If the third attempt
(retry count 2) resolves and the engine accepts the URL, playback starts,
no error reaches the caller, and exactly the delays 1s, 2s were awaited; if
4 consecutive attempts fail, the caller receives the `NetworkError` message
and `isLoading` is false afterwards, after delays 1s, 2s, 3s. -/
theorem playTrack_network_retry_spec (resolve : Nat → ResolveResult)
    (engine : Nat → Option String) (s : SessionState) (track : Track)
    (albumArg : Option Album) (trackIndexArg : Option Int) (f : Bool)
    (hsrc : track.src = "") (hkey : track.key ≠ "") :
    (∀ m0 m1 url,
      resolve 0 = .err m0 → isNetworkUrlError m0 = true →
      resolve 1 = .err m1 → isNetworkUrlError m1 = true →
      resolve 2 = .ok url → isBlank url = false → engine 2 = none →
      (playTrack none resolve engine s track albumArg trackIndexArg
          0 f).result = .ok () ∧
      (playTrack none resolve engine s track albumArg trackIndexArg
          0 f).state.isPlaying = true ∧
      (playTrack none resolve engine s track albumArg trackIndexArg
          0 f).state.isLoading = false ∧
      (playTrack none resolve engine s track albumArg trackIndexArg
          0 f).delays = [1000, 2000]) ∧
    (∀ m0 m1 m2 m3,
      resolve 0 = .err m0 → isNetworkUrlError m0 = true →
      resolve 1 = .err m1 → isNetworkUrlError m1 = true →
      resolve 2 = .err m2 → isNetworkUrlError m2 = true →
      resolve 3 = .err m3 → isNetworkUrlError m3 = true →
      (playTrack none resolve engine s track albumArg trackIndexArg
          0 f).result = .error networkFailMsg ∧
      (playTrack none resolve engine s track albumArg trackIndexArg
          0 f).state.isLoading = false ∧
      (playTrack none resolve engine s track albumArg trackIndexArg
          0 f).delays = [1000, 2000, 3000]) := by
  constructor
  · intro m0 m1 url h0 h0n h1 h1n h2 h2b he
    simp [playTrack, playTrackGo, urlPhase, hsrc, hkey, h0, h0n, h1, h1n,
      h2, h2b, he]
  · intro m0 m1 m2 m3 h0 h0n h1 h1n h2 h2n h3 h3n
    simp [playTrack, playTrackGo, urlPhase, hsrc, hkey, h0, h0n, h1, h1n,
      h2, h2n, h3, h3n]

/-! ### Concrete fixtures for witnesses and bug demonstrations -/

/-- A resolver that is never consulted (tracks below carry cached URLs). -/
def resolveUnused : Nat → ResolveResult := fun _ => .err "unused"

/-- An engine whose load/play always succeeds. -/
def engineOk : Nat → Option String := fun _ => none

def demoTrackOne : Track :=
  ⟨"Album A", "Song One", "u1", "Ann", "", none⟩

def demoTrackTwo : Track :=
  ⟨"Album A", "Song Two", "u2", "Ann", "", none⟩

def demoTrackThree : Track :=
  ⟨"Album A", "Song Three", "u3", "Ann", "", none⟩

/-- The original (unshuffled) demo album object. -/
def demoAlbum : Album :=
  ⟨"Ann", "Album A", "", [demoTrackOne, demoTrackTwo, demoTrackThree]⟩

/-- The derived album holding the shuffled order (Two, One), as built by
`playShuffled` for the two-track album. -/
def demoShuffledAlbum : Album :=
  ⟨"Ann", "Album A", "", [demoTrackTwo, demoTrackOne]⟩

/-- A session in shuffle mode, playing the first track of the shuffled
derived album (Two, One) of a two-track album (One, Two). -/
def demoShuffledSession : SessionState :=
  { currentTrack := some demoTrackTwo
    currentAlbum := some demoShuffledAlbum
    currentTrackIndex := 0
    isLoading := false
    isPlaying := true
    isShuffled := true
    shuffledIndexMap := [(0, 1), (1, 0)]
    trackFinishedTriggered := none }

/-- C4 (code bug): a `playTrack` call that *continues the same shuffled
sequence* — same derived album object, next shuffled position, shuffle
flag not passed (exactly what tapping the next row of the displayed
shuffled album does) — nevertheless resets the shuffle state.  The claim
(and the spec) say such a call preserves shuffle state, resetting only on
an album-identity or track-sequence change; but `playTrack` is memoised
with `useCallback(..., [])`, so the `currentAlbum` binding it compares
against is permanently the first-render `null`, `isNewAlbum` is always
`true`, and the supplied-sequence comparison is dead code.  The first
conjunct documents that the supplied sequence is pointwise identical to
the remembered shuffled sequence, i.e. the claim requires shuffle state to
survive; the call still succeeds yet ends with `isShuffled = false` and a
cleared index map. -/
theorem playTrack_always_resets_shuffle_bug :
    tracksMatchByTitleArtist demoShuffledAlbum.tracks
      demoShuffledAlbum.tracks = true ∧
    demoShuffledSession.isShuffled = true ∧
    (playTrack none resolveUnused engineOk demoShuffledSession demoTrackOne
      (some demoShuffledAlbum) (some 1) 0 false).result = .ok () ∧
    (playTrack none resolveUnused engineOk demoShuffledSession demoTrackOne
      (some demoShuffledAlbum) (some 1) 0 false).state.isShuffled = false ∧
    (playTrack none resolveUnused engineOk demoShuffledSession demoTrackOne
      (some demoShuffledAlbum) (some 1) 0 false).state.shuffledIndexMap
      = [] := by
  decide

/-- C2: a (de-duplicated) finish signal for a session at index `i` of a
queue context advances playback to index `i + 1` — the track at that queue
position becomes the current track and plays — and when `i + 1` is past the
last index the controller instead sets `isPlaying := false` and changes
nothing else (no further advance is attempted). -/
theorem handleTrackFinished_spec (resolve : Nat → ResolveResult)
    (engine : Nat → Option String) (isBackground : Bool)
    (precache : ResolveResult) (s : SessionState) (album : Album)
    (hA : s.currentAlbum = some album) (hi : 0 ≤ s.currentTrackIndex) :
    (∀ q, album.tracks[(s.currentTrackIndex + 1).toNat]? = some q →
      q.src ≠ "" → isBlank q.src = false → engine 0 = none →
      s.currentTrackIndex + 1 < (album.tracks.length : Int) →
      (handleTrackFinished resolve engine isBackground precache
          s).state.currentTrackIndex = s.currentTrackIndex + 1 ∧
      (handleTrackFinished resolve engine isBackground precache
          s).state.currentTrack = some q ∧
      (handleTrackFinished resolve engine isBackground precache
          s).state.currentAlbum = some album ∧
      (handleTrackFinished resolve engine isBackground precache
          s).state.isPlaying = true ∧
      (handleTrackFinished resolve engine isBackground precache
          s).state.isLoading = false ∧
      (handleTrackFinished resolve engine isBackground precache
          s).retryScheduled = false) ∧
    (s.currentTrackIndex + 1 ≥ (album.tracks.length : Int) →
      handleTrackFinished resolve engine isBackground precache s =
        ⟨{ s with isPlaying := false }, false⟩) := by
  have hnotneg : ¬ s.currentTrackIndex < 0 := by omega
  constructor
  · intro q hq hqsrc hqb he hlt
    have hnotend : ¬ s.currentTrackIndex + 1 ≥ (album.tracks.length : Int) :=
      by omega
    have hsrcne : (q.src == "") = false := by
      simp [hqsrc]
    simp only [handleTrackFinished, hA, hnotneg, hnotend, hq, if_false,
      ite_false, if_neg, hsrcne, Bool.and_false, Bool.false_and,
      Bool.if_false_left]
    simp only [playTrack, playTrackGo, urlPhase]
    have hsrcbne : (q.src != "") = true := by
      simp [hqsrc]
    simp only [hsrcbne, if_true, hqb, Bool.false_eq_true, if_false, he]
    simp [prepState_currentTrackIndex, prepState_currentTrack,
      prepState_currentAlbum]
  · intro hend
    simp only [handleTrackFinished, hA, hnotneg]
    simp [hend]

/-- C9: with a queue context present, `skipToNext` at the last index of the
queue leaves the whole session unchanged (no `playTrack` call, a resolved
no-op), and `skipToPrevious` at index 0 likewise. -/
theorem skip_boundary_noop (resolve : Nat → ResolveResult)
    (engine : Nat → Option String) (s : SessionState) (album : Album)
    (hA : s.currentAlbum = some album) :
    (0 ≤ s.currentTrackIndex →
      s.currentTrackIndex + 1 = (album.tracks.length : Int) →
      skipToNext resolve engine s = ⟨s, .ok (), []⟩) ∧
    (s.currentTrackIndex = 0 →
      skipToPrevious resolve engine s = ⟨s, .ok (), []⟩) := by
  constructor
  · intro h0 hlast
    have hnot : ¬ s.currentTrackIndex + 1 < (album.tracks.length : Int) := by
      omega
    simp [skipToNext, hA, h0, hnot]
  · intro h0
    have hnot : ¬ s.currentTrackIndex > 0 := by omega
    simp [skipToPrevious, hA, hnot]

/-- C10: when no sound object has ever been loaded, the engine adapter's
`pause`/`resume` are guarded no-ops that resolve successfully, yet the
controller still flips the playing flag on that success: in particular
`resumeTrack` sets `isPlaying := true` even from the initial session, so
`isPlaying = true` with `currentTrack = none` is reachable. -/
theorem pause_resume_unloaded_spec (engineCall : Option String)
    (s : SessionState) :
    servicePause false engineCall = .ok () ∧
    serviceResume false engineCall = .ok () ∧
    pauseTrack false engineCall s = { s with isPlaying := false } ∧
    resumeTrack false engineCall s = { s with isPlaying := true } ∧
    (resumeTrack false engineCall initialSession).isPlaying = true ∧
    (resumeTrack false engineCall initialSession).currentTrack = none := by
  refine ⟨rfl, rfl, rfl, rfl, rfl, rfl⟩

theorem applyAlbumCheck_fromShuffle (cap : Option Album) (s : SessionState)
    (album : Album) :
    applyAlbumCheck cap s album true = { s with currentAlbum := some album } := by
  simp [applyAlbumCheck]

/-- C5: `playShuffled` is a no-op on an album with zero tracks; otherwise it
stores the shuffle index map, marks shuffle active, and plays the first
track of the shuffled derived album with the shuffle-continuation flag, so
the session ends shuffled and playing a track drawn from a permutation of
the album's tracks; and when the `playTrack` call fails, the shuffle flag
is rolled back to inactive and the error is re-raised to the caller. -/
theorem playShuffled_spec (rand : Nat → Nat) (resolve : Nat → ResolveResult)
    (engine : Nat → Option String) (s : SessionState) (album : Album) :
    (album.tracks = [] →
      playShuffled rand resolve engine s album = ⟨s, .ok (), []⟩) ∧
    (album.tracks ≠ [] →
      (∀ t ∈ album.tracks, t.src ≠ "" ∧ isBlank t.src = false) →
      engine 0 = none →
      (playShuffled rand resolve engine s album).result = .ok () ∧
      (playShuffled rand resolve engine s album).state.isShuffled = true ∧
      (playShuffled rand resolve engine s album).state.shuffledIndexMap =
        (createShuffledPlaylist rand album.tracks).2 ∧
      (playShuffled rand resolve engine s album).state.currentTrack =
        some (createShuffledPlaylist rand album.tracks).1.headI ∧
      (createShuffledPlaylist rand album.tracks).1.headI ∈ album.tracks ∧
      (playShuffled rand resolve engine s album).state.currentAlbum =
        some { album with
          tracks := (createShuffledPlaylist rand album.tracks).1 } ∧
      (playShuffled rand resolve engine s album).state.currentTrackIndex = 0 ∧
      (playShuffled rand resolve engine s album).state.isPlaying = true) ∧
    (album.tracks ≠ [] →
      (∀ t ∈ album.tracks, t.src ≠ "" ∧ isBlank t.src = false) →
      ∀ msg, engine 0 = some msg → isNetworkPlayError msg = false →
      (playShuffled rand resolve engine s album).result = .error msg ∧
      (playShuffled rand resolve engine s album).state.isShuffled = false) ∧
    (∀ msg, (playShuffled rand resolve engine s album).result = .error msg →
      (playShuffled rand resolve engine s album).state.isShuffled
        = false) := by
  have hperm := shuffleTracks_perm rand album.tracks
  refine ⟨?_, ?_, ?_, ?_⟩
  · intro hnil
    simp [playShuffled, hnil]
  · intro hne hsrc he
    have hlen : (album.tracks.length == 0) = false := by
      simp [List.length_eq_zero, hne]
    have hne' : shuffleTracks rand album.tracks ≠ [] := by
      intro h
      exact hne (List.Perm.eq_nil ((h ▸ hperm).symm))
    have hmem : (createShuffledPlaylist rand album.tracks).1.headI ∈
        album.tracks := by
      have : (shuffleTracks rand album.tracks).headI ∈
          shuffleTracks rand album.tracks := by
        obtain ⟨x, xs, hxx⟩ := List.exists_cons_of_ne_nil hne'
        rw [hxx]
        exact List.mem_cons_self x xs
      exact hperm.mem_iff.mp this
    have hheadsrc := hsrc _ hmem
    have hsrcbne : ((createShuffledPlaylist rand
        album.tracks).1.headI.src != "") = true := by
      simp [hheadsrc.1]
    refine ⟨?_, ?_, ?_, ?_, hmem, ?_, ?_, ?_⟩ <;>
      simp only [playShuffled, hlen, Bool.false_eq_true, if_false,
        playTrack, playTrackGo, urlPhase, createShuffledPlaylist] <;>
      simp only [createShuffledPlaylist] at hsrcbne hheadsrc <;>
      simp [hsrcbne, hheadsrc.2, he, prepState, applyAlbumCheck_fromShuffle]
  · intro hne hsrc msg he hmsg
    have hlen : (album.tracks.length == 0) = false := by
      simp [List.length_eq_zero, hne]
    have hne' : shuffleTracks rand album.tracks ≠ [] := by
      intro h
      exact hne (List.Perm.eq_nil ((h ▸ hperm).symm))
    have hmem : (createShuffledPlaylist rand album.tracks).1.headI ∈
        album.tracks := by
      have : (shuffleTracks rand album.tracks).headI ∈
          shuffleTracks rand album.tracks := by
        obtain ⟨x, xs, hxx⟩ := List.exists_cons_of_ne_nil hne'
        rw [hxx]
        exact List.mem_cons_self x xs
      exact hperm.mem_iff.mp this
    have hheadsrc := hsrc _ hmem
    have hsrcbne : ((createShuffledPlaylist rand
        album.tracks).1.headI.src != "") = true := by
      simp [hheadsrc.1]
    refine ⟨?_, ?_⟩ <;>
      simp only [playShuffled, hlen, Bool.false_eq_true, if_false,
        playTrack, playTrackGo, urlPhase, createShuffledPlaylist] <;>
      simp only [createShuffledPlaylist] at hsrcbne hheadsrc <;>
      simp [hsrcbne, hheadsrc.2, he, hmsg, prepState, applyAlbumCheck_fromShuffle]
  · intro msg hmsg
    by_cases hlen : (album.tracks.length == 0) = true
    · rw [playShuffled] at hmsg
      simp [hlen] at hmsg
    · simp only [playShuffled, hlen, Bool.false_eq_true, if_false,
        ite_false] at hmsg ⊢
      set out := playTrack none resolve engine ({ s with shuffledIndexMap := (createShuffledPlaylist rand album.tracks).2, isShuffled := true }) (createShuffledPlaylist rand album.tracks).1.headI (some ({ album with tracks := (createShuffledPlaylist rand album.tracks).1 })) (some 0) 0 true with hdef
      rcases hres : out.result with m | u <;>
        simp only [hres] at hmsg ⊢ <;> simp at hmsg

/-! ## The queue/track consistency invariant (C6) -/

/-- The spec's session invariant: when a current track and a queue context
are both present, the queue position identifies the current track
(`queue[index] == currentTrack`, with reference equality modelled by
`trackIdEq`). -/
def sessionInvariant (s : SessionState) : Bool :=
  match s.currentTrack, s.currentAlbum with
  | some t, some a =>
    decide (0 ≤ s.currentTrackIndex) &&
      (match a.tracks[s.currentTrackIndex.toNat]? with
       | some q => trackIdEq q t
       | none => false)
  | _, _ => true

theorem trackIdEq_refl (t : Track) : trackIdEq t t = true := by
  simp [trackIdEq]

theorem trackIdEq_trans (a b c : Track) (h1 : trackIdEq a b = true)
    (h2 : trackIdEq b c = true) : trackIdEq a c = true := by
  simp only [trackIdEq, Bool.and_eq_true, beq_iff_eq] at h1 h2 ⊢
  exact ⟨⟨⟨h1.1.1.1.trans h2.1.1.1, h1.1.1.2.trans h2.1.1.2⟩,
    h1.1.2.trans h2.1.2⟩, h1.2.trans h2.2⟩

theorem urlPhase_resolved_trackIdEq (resolve : Nat → ResolveResult)
    (track : Track) (rc : Nat) (track' : Track) (url : String)
    (h : urlPhase resolve track rc = .resolved track' url) :
    trackIdEq track' track = true := by
  unfold urlPhase at h
  split at h
  · cases h
    exact trackIdEq_refl track
  · split at h
    · cases h
    · split at h
      · cases h
        simp [trackIdEq]
      · split at h <;> cases h

/-- Through any number of retries, a `playTrack` call that supplies a queue
context and an index settles with exactly that queue context and index, and
with a current track that is the supplied track up to the `src` cache. -/
theorem playTrackGo_state_core (cap : Option Album)
    (resolve : Nat → ResolveResult) (engine : Nat → Option String) :
    ∀ (fuel : Nat) (s : SessionState) (track : Track) (a : Album) (i : Int)
      (rc : Nat) (f : Bool),
      (playTrackGo cap resolve engine fuel s track (some a) (some i) rc
        f).state.currentAlbum = some a ∧
      (playTrackGo cap resolve engine fuel s track (some a) (some i) rc
        f).state.currentTrackIndex = i ∧
      ∃ t', (playTrackGo cap resolve engine fuel s track (some a) (some i)
        rc f).state.currentTrack = some t' ∧ trackIdEq t' track = true := by
  intro fuel
  induction fuel with
  | zero =>
    intro s track a i rc f
    refine ⟨?_, ?_, track, ?_, trackIdEq_refl track⟩ <;>
      simp [playTrackGo, prepState_currentAlbum, prepState_currentTrackIndex,
        prepState_currentTrack]
  | succ fuel ih =>
    intro s track a i rc f
    simp only [playTrackGo]
    rcases hu : urlPhase resolve track rc with ⟨track', url⟩ | m | m <;>
      simp only [hu]
    · have htr := urlPhase_resolved_trackIdEq resolve track rc track' url hu
      by_cases hb : isBlank url <;> simp only [hb, if_true, if_false, ite_true, ite_false]
      · by_cases hn : (isNetworkPlayError (invalidUrlMsg track) &&
            decide (rc < 3)) = true <;>
          simp only [hn, if_true, if_false, ite_true, ite_false, Bool.false_eq_true]
        · obtain ⟨g1, g2, t', g3, g4⟩ := ih _ track' a i (rc + 1) f
          exact ⟨g1, g2, t', g3, trackIdEq_trans t' track' track g4 htr⟩
        · refine ⟨?_, ?_, track, ?_, trackIdEq_refl track⟩ <;>
            simp [prepState_currentAlbum, prepState_currentTrackIndex,
              prepState_currentTrack]
      · rcases he : engine rc with _ | msg <;> simp only [he]
        · refine ⟨?_, ?_, track, ?_, trackIdEq_refl track⟩ <;>
            simp [prepState_currentAlbum, prepState_currentTrackIndex,
              prepState_currentTrack]
        · by_cases hn : (isNetworkPlayError msg && decide (rc < 3)) = true <;>
            simp only [hn, if_true, if_false, ite_true, ite_false, Bool.false_eq_true]
          · obtain ⟨g1, g2, t', g3, g4⟩ := ih _ track' a i (rc + 1) f
            exact ⟨g1, g2, t', g3, trackIdEq_trans t' track' track g4 htr⟩
          · refine ⟨?_, ?_, track, ?_, trackIdEq_refl track⟩ <;>
              simp [prepState_currentAlbum, prepState_currentTrackIndex,
                prepState_currentTrack]
    · exact ih _ track a i (rc + 1) f
    · by_cases hn : (isNetworkPlayError m && decide (rc < 3)) = true <;>
        simp only [hn, if_true, if_false, ite_true, ite_false, Bool.false_eq_true]
      · exact ih _ track a i (rc + 1) f
      · refine ⟨?_, ?_, track, ?_, trackIdEq_refl track⟩ <;>
          simp [prepState_currentAlbum, prepState_currentTrackIndex,
            prepState_currentTrack]

theorem trackIdEq_symm (a b : Track) (h : trackIdEq a b = true) :
    trackIdEq b a = true := by
  simp only [trackIdEq, Bool.and_eq_true, beq_iff_eq] at h ⊢
  exact ⟨⟨⟨h.1.1.1.symm, h.1.1.2.symm⟩, h.1.2.symm⟩, h.2.symm⟩

theorem sessionInvariant_fields_only (s s' : SessionState)
    (h1 : s'.currentTrack = s.currentTrack)
    (h2 : s'.currentAlbum = s.currentAlbum)
    (h3 : s'.currentTrackIndex = s.currentTrackIndex) :
    sessionInvariant s' = sessionInvariant s := by
  unfold sessionInvariant
  rw [h1, h2, h3]

/-- A `playTrack` call that supplies a queue context together with the index
of the supplied track inside it settles in a state satisfying the
invariant, on every path (success, retries, failure). -/
theorem playTrack_consistent_invariant (resolve : Nat → ResolveResult)
    (engine : Nat → Option String) (fuel : Nat) (s : SessionState)
    (track : Track) (a : Album) (i : Int) (rc : Nat) (f : Bool) (q : Track)
    (h0 : 0 ≤ i) (hq : a.tracks[i.toNat]? = some q)
    (hid : trackIdEq q track = true) :
    sessionInvariant (playTrackGo none resolve engine fuel s track (some a)
      (some i) rc f).state = true := by
  obtain ⟨g1, g2, t', g3, g4⟩ :=
    playTrackGo_state_core none resolve engine fuel s track a i rc f
  have hqt' : trackIdEq q t' = true :=
    trackIdEq_trans q track t' hid (trackIdEq_symm t' track g4)
  simp [sessionInvariant, g1, g2, g3, hq, h0, hqt']

/-- C6 (amended): starting from a session satisfying the invariant, every
operation preserves it — `skipToNext`, `skipToPrevious`, the auto-advance
handler, `playShuffled`, and every `playTrack` call that supplies a queue
context together with an index identifying the supplied track in it.  (The
unamended claim fails for `playTrack` calls that supply no queue context
while one is present — see the counterexample.) -/
theorem session_invariant_preserved (resolve : Nat → ResolveResult)
    (engine : Nat → Option String) (rand : Nat → Nat) (isBackground : Bool)
    (precache : ResolveResult) (s : SessionState)
    (hInv : sessionInvariant s = true) :
    (∀ track a i f q, 0 ≤ i → a.tracks[i.toNat]? = some q →
      trackIdEq q track = true →
      sessionInvariant (playTrack none resolve engine s track (some a)
        (some i) 0 f).state = true) ∧
    sessionInvariant (skipToNext resolve engine s).state = true ∧
    sessionInvariant (skipToPrevious resolve engine s).state = true ∧
    sessionInvariant (handleTrackFinished resolve engine isBackground
      precache s).state = true ∧
    (∀ album, sessionInvariant (playShuffled rand resolve engine s
      album).state = true) := by
  refine ⟨?_, ?_, ?_, ?_, ?_⟩
  · intro track a i f q h0 hq hid
    exact playTrack_consistent_invariant resolve engine _ s track a i 0 f q
      h0 hq hid
  · rcases hA : s.currentAlbum with _ | album
    · simpa [skipToNext, hA] using hInv
    · by_cases h0 : s.currentTrackIndex ≥ 0
      · by_cases h1 : s.currentTrackIndex + 1 < (album.tracks.length : Int)
        · rcases hq : album.tracks[(s.currentTrackIndex + 1).toNat]?
            with _ | t
          · simpa [skipToNext, hA, h0, h1, hq] using hInv
          · simp only [skipToNext, hA, h0, h1, hq, if_true, ite_true]
            exact playTrack_consistent_invariant resolve engine _ s t album
              _ 0 false t (by omega) hq (trackIdEq_refl t)
        · simpa [skipToNext, hA, h0, h1] using hInv
      · simpa [skipToNext, hA, h0] using hInv
  · rcases hA : s.currentAlbum with _ | album
    · simpa [skipToPrevious, hA] using hInv
    · by_cases h0 : s.currentTrackIndex > 0
      · rcases hq : album.tracks[(s.currentTrackIndex - 1).toNat]?
          with _ | t
        · simp only [skipToPrevious, hA, h0, if_true, ite_true, hq]
          exact hInv
        · simp only [skipToPrevious, hA, h0, hq, if_true, ite_true]
          exact playTrack_consistent_invariant resolve engine _ s t album
            _ 0 false t (by omega) hq (trackIdEq_refl t)
      · simpa [skipToPrevious, hA, h0] using hInv
  · rcases hA : s.currentAlbum with _ | album
    · simpa [handleTrackFinished, hA] using hInv
    · by_cases h0 : s.currentTrackIndex < 0
      · simpa [handleTrackFinished, hA, h0] using hInv
      · by_cases h1 : s.currentTrackIndex + 1 ≥ (album.tracks.length : Int)
        · have h2 : (handleTrackFinished resolve engine isBackground precache
              s).state = { s with isPlaying := false } := by
            simp [handleTrackFinished, hA, h0, h1]
          rw [h2, sessionInvariant_fields_only s
            ({ s with isPlaying := false }) rfl rfl rfl]
          exact hInv
        · rcases hq : album.tracks[(s.currentTrackIndex + 1).toNat]?
            with _ | nt
          · simpa [handleTrackFinished, hA, h0, h1, hq] using hInv
          · simp only [handleTrackFinished, hA, h0, h1, hq, if_true,
              ite_true, if_false, ite_false]
            set nextTrack := if !isBackground && nt.src == "" &&
                nt.key != "" then
                match precache with
                | .ok url => { nt with src := url }
                | .err _ => nt
              else nt with hnt
            have hid : trackIdEq nt nextTrack = true := by
              rw [hnt]
              split
              · split <;> simp [trackIdEq]
              · exact trackIdEq_refl nt
            have hout := playTrack_consistent_invariant resolve engine
              (3 - 0 + 1) s
              nextTrack album (s.currentTrackIndex + 1) 0 s.isShuffled nt
              (by omega) hq hid
            set out := playTrack none resolve engine s nextTrack
              (some album) (some (s.currentTrackIndex + 1)) 0 s.isShuffled
              with hdef
            rcases hres : out.result with msg | u <;> simp only [hres]
            · split
              · exact hout
              · show sessionInvariant
                  { out.state with isPlaying := false } = true
                rw [sessionInvariant_fields_only out.state
                  ({ out.state with isPlaying := false }) rfl rfl rfl]
                exact hout
            · show sessionInvariant
                { out.state with trackFinishedTriggered := none } = true
              rw [sessionInvariant_fields_only out.state
                ({ out.state with trackFinishedTriggered := none })
                rfl rfl rfl]
              exact hout
  · intro album
    by_cases hlen : (album.tracks.length == 0) = true
    · simpa [playShuffled, hlen] using hInv
    · have hne : album.tracks ≠ [] := by
        simpa [List.length_eq_zero] using hlen
      have hperm := shuffleTracks_perm rand album.tracks
      have hne' : shuffleTracks rand album.tracks ≠ [] := by
        intro h
        exact hne (List.Perm.eq_nil ((h ▸ hperm).symm))
      obtain ⟨x, xs, hxx⟩ := List.exists_cons_of_ne_nil hne'
      have hq : ({ album with tracks := (createShuffledPlaylist rand album.tracks).1 } : Album).tracks[(0 : Int).toNat]? = some (createShuffledPlaylist rand album.tracks).1.headI := by
        simp only [createShuffledPlaylist]
        rw [hxx]
        simp
      have hout := playTrack_consistent_invariant resolve engine
        (3 - 0 + 1)
        ({ s with shuffledIndexMap := (createShuffledPlaylist rand album.tracks).2, isShuffled := true })
        (createShuffledPlaylist rand album.tracks).1.headI
        ({ album with tracks := (createShuffledPlaylist rand album.tracks).1 })
        0 0 true (createShuffledPlaylist rand album.tracks).1.headI
        (by omega) hq (trackIdEq_refl _)
      simp only [playShuffled, hlen, Bool.false_eq_true, if_false, ite_false]
      set out := playTrack none resolve engine ({ s with shuffledIndexMap := (createShuffledPlaylist rand album.tracks).2, isShuffled := true }) (createShuffledPlaylist rand album.tracks).1.headI (some ({ album with tracks := (createShuffledPlaylist rand album.tracks).1 })) (some 0) 0 true with hdef
      rcases hres : out.result with msg | u <;> simp only [hres]
      · show sessionInvariant { out.state with isShuffled := false } = true
        rw [sessionInvariant_fields_only out.state
          ({ out.state with isShuffled := false }) rfl rfl rfl]
        exact hout
      · exact hout

/-! ### Counterexample and witness instances -/

/-- A session consistently playing track 0 of the three-track demo album. -/
def demoSession0 : SessionState :=
  { currentTrack := some demoTrackOne
    currentAlbum := some demoAlbum
    currentTrackIndex := 0
    isLoading := false
    isPlaying := true
    isShuffled := false
    shuffledIndexMap := []
    trackFinishedTriggered := none }

/-- The same session advanced to index 1. -/
def demoSession1 : SessionState :=
  { demoSession0 with
    currentTrack := some demoTrackTwo
    currentTrackIndex := 1 }

/-- The same session advanced to index 2 (the last index). -/
def demoSession2 : SessionState :=
  { demoSession0 with
    currentTrack := some demoTrackThree
    currentTrackIndex := 2 }

/-- A track from an unrelated context, played without a queue context. -/
def demoLoneTrack : Track :=
  ⟨"Other Album", "Lone Song", "u9", "Bob", "", none⟩

/-- C6, counterexample to the unamended claim: from a session satisfying
the invariant, a completed `playTrack` call that supplies no queue context
(single-track play) leaves the stale queue context and index in place while
replacing the current track, so the invariant is false afterwards. -/
theorem session_invariant_counterexample :
    sessionInvariant demoSession0 = true ∧
    (playTrack none resolveUnused engineOk demoSession0 demoLoneTrack
      none none 0 false).result = .ok () ∧
    sessionInvariant (playTrack none resolveUnused engineOk demoSession0
      demoLoneTrack none none 0 false).state = false := by
  decide

/-- Witness for C2: on the three-track demo queue, finish signals advance
0 → 1 → 2 and then stop with `isPlaying = false` and no further advance. -/
theorem handleTrackFinished_spec_witness :
    ((handleTrackFinished resolveUnused engineOk false (.err "x")
        demoSession0).state.currentTrackIndex =
      demoSession0.currentTrackIndex + 1 ∧
      (handleTrackFinished resolveUnused engineOk false (.err "x")
        demoSession0).state.currentTrack = some demoTrackTwo) ∧
    ((handleTrackFinished resolveUnused engineOk false (.err "x")
        demoSession1).state.currentTrackIndex =
      demoSession1.currentTrackIndex + 1 ∧
      (handleTrackFinished resolveUnused engineOk false (.err "x")
        demoSession1).state.currentTrack = some demoTrackThree) ∧
    handleTrackFinished resolveUnused engineOk false (.err "x") demoSession2 =
      ⟨{ demoSession2 with isPlaying := false }, false⟩ := by
  have h0 := (handleTrackFinished_spec resolveUnused engineOk false
    (.err "x") demoSession0 demoAlbum rfl (by decide)).1 demoTrackTwo
    (by decide) (by decide) (by decide) rfl (by decide)
  have h1 := (handleTrackFinished_spec resolveUnused engineOk false
    (.err "x") demoSession1 demoAlbum rfl (by decide)).1 demoTrackThree
    (by decide) (by decide) (by decide) rfl (by decide)
  have h2 := (handleTrackFinished_spec resolveUnused engineOk false
    (.err "x") demoSession2 demoAlbum rfl (by decide)).2 (by decide)
  exact ⟨⟨h0.1, h0.2.1⟩, ⟨h1.1, h1.2.1⟩, h2⟩

/-- A resolver failing with a network-classified error on the first two
attempts and succeeding on the third. -/
def resolveFailTwice : Nat → ResolveResult
  | 0 => .err "Network request failed"
  | 1 => .err "Network request failed"
  | _ => .ok "u-ok"

/-- A resolver always failing with a network-classified error. -/
def resolveFailAlways : Nat → ResolveResult :=
  fun _ => .err "Network request failed"

/-- A track that must be resolved through the backend key. -/
def demoKeyTrack : Track :=
  ⟨"Album A", "Keyed Song", "", "Ann", "k1", none⟩

/-- Witness for C3: two network failures then success → playback starts
after delays 1s, 2s; four network failures → `NetworkError` to the caller,
loading cleared, after delays 1s, 2s, 3s. -/
theorem playTrack_network_retry_spec_witness :
    (playTrack none resolveFailTwice engineOk initialSession demoKeyTrack
      none none 0 false).result = .ok () ∧
    (playTrack none resolveFailTwice engineOk initialSession demoKeyTrack
      none none 0 false).delays = [1000, 2000] ∧
    (playTrack none resolveFailAlways engineOk initialSession demoKeyTrack
      none none 0 false).result = .error networkFailMsg ∧
    (playTrack none resolveFailAlways engineOk initialSession demoKeyTrack
      none none 0 false).state.isLoading = false ∧
    (playTrack none resolveFailAlways engineOk initialSession demoKeyTrack
      none none 0 false).delays = [1000, 2000, 3000] := by
  have h1 := (playTrack_network_retry_spec resolveFailTwice engineOk
    initialSession demoKeyTrack none none false rfl (by decide)).1
    "Network request failed" "Network request failed" "u-ok"
    rfl (by decide) rfl (by decide) rfl (by decide) rfl
  have h2 := (playTrack_network_retry_spec resolveFailAlways engineOk
    initialSession demoKeyTrack none none false rfl (by decide)).2
    "Network request failed" "Network request failed"
    "Network request failed" "Network request failed"
    rfl (by decide) rfl (by decide) rfl (by decide) rfl (by decide)
  exact ⟨h1.1, h1.2.2.2, h2.1, h2.2.1, h2.2.2⟩

/-- A deterministic swap-choice oracle (always position 0). -/
def randZero : Nat → Nat := fun _ => 0

/-- Witness for C5: shuffling the three-track demo album starts playback of
a track drawn from a permutation of its tracks with shuffle state set. -/
theorem playShuffled_spec_witness :
    (playShuffled randZero resolveUnused engineOk initialSession
      demoAlbum).result = .ok () ∧
    (playShuffled randZero resolveUnused engineOk initialSession
      demoAlbum).state.isShuffled = true ∧
    (createShuffledPlaylist randZero demoAlbum.tracks).1.headI ∈
      demoAlbum.tracks ∧
    (playShuffled randZero resolveUnused engineOk initialSession
      demoAlbum).state.isPlaying = true := by
  have h := (playShuffled_spec randZero resolveUnused engineOk
    initialSession demoAlbum).2.1 (by decide) (by decide) rfl
  exact ⟨h.1, h.2.1, h.2.2.2.2.1, h.2.2.2.2.2.2.2⟩

/-- Witness for C6 (amended): from the consistent demo session the
invariant survives a skip and a shuffle start. -/
theorem session_invariant_preserved_witness :
    sessionInvariant demoSession0 = true ∧
    sessionInvariant (skipToNext resolveUnused engineOk
      demoSession0).state = true ∧
    sessionInvariant (playShuffled randZero resolveUnused engineOk
      demoSession0 demoAlbum).state = true := by
  have h := session_invariant_preserved resolveUnused engineOk randZero
    false (.err "x") demoSession0 (by decide)
  exact ⟨by decide, h.2.1, h.2.2.2.2 demoAlbum⟩

/-- Witness for C8: for the deterministic shuffle of the demo album, the
map entry (0, 1) is present and satisfies the index-map contract. -/
theorem createShuffledPlaylist_indexMap_spec_witness :
    (0, 1) ∈ (createShuffledPlaylist randZero demoAlbum.tracks).2 ∧
    (1 < demoAlbum.tracks.length ∧
    ∃ st q, ((createShuffledPlaylist randZero demoAlbum.tracks).1)[0]? =
        some st ∧
      demoAlbum.tracks[1]? = some q ∧ sameTitleArtist st q = true ∧
      ∀ k q', k < 1 → demoAlbum.tracks[k]? = some q' →
        sameTitleArtist st q' = false) :=
  ⟨by decide, createShuffledPlaylist_indexMap_spec randZero demoAlbum.tracks
    0 1 (by decide)⟩

/-- Witness for C9: on the demo queue, `skipToNext` at the last index and
`skipToPrevious` at index 0 are exact no-ops. -/
theorem skip_boundary_noop_witness :
    skipToNext resolveUnused engineOk demoSession2 =
      ⟨demoSession2, .ok (), []⟩ ∧
    skipToPrevious resolveUnused engineOk demoSession0 =
      ⟨demoSession0, .ok (), []⟩ :=
  ⟨(skip_boundary_noop resolveUnused engineOk demoSession2 demoAlbum
      rfl).1 (by decide) (by decide),
    (skip_boundary_noop resolveUnused engineOk demoSession0 demoAlbum
      rfl).2 (by decide)⟩
